import Mathlib

/-!
Verification of the bank-nifty dashboard pipeline
(`src/bank_nifty_dashboard.py`) against its specification.

The program is a linear pipeline: fetch per-symbol quote snapshots from a
market-data provider, normalize each into a display row, filter the
assembled table by ROE and P/E criteria, then render and export the result.

Embedding conventions:
* Python numbers are modelled as rationals (`ℚ`); `round(x, 2)` is modelled
  as decimal rounding to two places with ties going to the even cent
  (the rounding mode of the Python builtin on exact values).
* The provider response `stock.info` is a partial record: every field that
  `info.get` may miss is an `Option ℚ`.  `info.get(k, 0)` is `.getD 0`;
  `info.get("trailingPE", None)` keeps the `Option`.
* The pandas filter `df["P/E Ratio"] <= max_pe` treats an absent P/E
  (`None`, stored as NaN in a numeric column) as failing the comparison,
  since every comparison against NaN is false; the row predicate below
  reflects that.
* The UI clock (`datetime.now()` on the caption line) is part of an
  explicit environment so that independence of the result table from the
  clock is statable.
* The two fallible steps of the source are modelled with `Except`:
  the provider call of line 30 (`stock.info`) may raise, and nothing in
  `fetch_data` handles it, so a raising symbol aborts the whole fetch
  (`fetch_data_run`); and the column selection of line 83 raises
  `KeyError` on the frame that `pd.DataFrame([])` produces for an empty
  selection, since that frame has no columns (`filterTableRun`,
  `pipelineRun`).  The total functions `fetch_data`, `filterTable` and
  `pipeline` model the successful paths of the same lines: a provider
  that returns a response for every symbol, and a frame that has its
  columns (at least one fetched row).
-/

/-- Decimal rounding of `q` to an integer, ties to even (Python `round`). -/
def roundHalfEven (q : ℚ) : ℤ :=
  let f := ⌊q⌋
  if q - f < 1/2 then f
  else if q - f > 1/2 then f + 1
  else if f % 2 = 0 then f else f + 1

/-- `round(q, 2)` from the source: round to two decimal places. -/
def roundTo2 (q : ℚ) : ℚ := (roundHalfEven (q * 100) : ℚ) / 100

/-- One provider response (`stock.info`): the fields the source reads,
each possibly absent. -/
structure Info where
  currentPrice : Option ℚ
  fiftyTwoWeekHigh : Option ℚ
  fiftyTwoWeekLow : Option ℚ
  marketCap : Option ℚ
  trailingPE : Option ℚ
  returnOnEquity : Option ℚ
deriving DecidableEq, Repr

/-- The response when the provider has no data for a symbol: every field
absent, so every `info.get(k, d)` yields its default. -/
def Info.empty : Info :=
  { currentPrice := none, fiftyTwoWeekHigh := none, fiftyTwoWeekLow := none
  , marketCap := none, trailingPE := none, returnOnEquity := none }

/-- A market-data provider: symbol to response.  One lookup per symbol is
performed by the fetch; there is no retry. -/
def Provider : Type := String → Info

/-- One row of the assembled DataFrame (a `DisplayRecord` of the spec).
`trend` holds the glyph string exactly as the source stores it. -/
structure DisplayRecord where
  company : String
  currentPrice : ℚ
  high52 : ℚ
  low52 : ℚ
  trend : String
  marketCapCr : ℚ
  pe : Option ℚ
  roePercent : ℚ
deriving DecidableEq, Repr

/-- Line 34 of the source:
`"⬆️" if current > (high * 0.95) else ("⬇️" if current < (low * 1.05) else "↔️")`. -/
def computeTrend (current high low : ℚ) : String :=
  if current > high * (19/20) then "⬆️"
  else if current < low * (21/20) then "⬇️"
  else "↔️"

/-- Lines 29–44 of `fetch_data`, for one `(name, symbol)` entry: read the
provider response and build the row dict appended to `data`. -/
def fetchRow (provider : Provider) (entry : String × String) : DisplayRecord :=
  let info := provider entry.2
  let current := info.currentPrice.getD 0
  let high := info.fiftyTwoWeekHigh.getD 0
  let low := info.fiftyTwoWeekLow.getD 0
  { company := entry.1
  , currentPrice := current
  , high52 := high
  , low52 := low
  , trend := computeTrend current high low
  , marketCapCr := roundTo2 (info.marketCap.getD 0 / 10000000)
  , pe := info.trailingPE
  , roePercent := roundTo2 (info.returnOnEquity.getD 0 * 100) }

/-- `fetch_data` (lines 26–45): one row per ticker entry, in input order. -/
def fetch_data (provider : Provider) (tickers : List (String × String)) :
    List DisplayRecord :=
  tickers.map (fetchRow provider)

/-- The static ticker directory (lines 10–23). -/
def bank_nifty_tickers : List (String × String) :=
  [ ("HDFC Bank", "HDFCBANK.NS")
  , ("ICICI Bank", "ICICIBANK.NS")
  , ("Axis Bank", "AXISBANK.NS")
  , ("Kotak Mahindra Bank", "KOTAKBANK.NS")
  , ("State Bank of India", "SBIN.NS")
  , ("IndusInd Bank", "INDUSINDBK.NS")
  , ("Bank of Baroda", "BANKBARODA.NS")
  , ("Punjab National Bank", "PNB.NS")
  , ("Canara Bank", "CANBK.NS")
  , ("Federal Bank", "FEDERALBNK.NS")
  , ("IDFC First Bank", "IDFCFIRSTB.NS")
  , ("AU Small Finance Bank", "AUBANK.NS") ]

/-- The UI filter inputs (sidebar, lines 75–78). -/
structure FilterCriteria where
  selectedCompanies : List String
  minROE : ℚ
  maxPE : ℚ

/-- Line 81: `{k: bank_nifty_tickers[k] for k in selected_companies}` —
the directory restricted to the selected companies, in selection order. -/
def filtered_tickers (selected : List String) : List (String × String) :=
  selected.filterMap fun k =>
    (bank_nifty_tickers.lookup k).map fun v => (k, v)

/-- The row predicate of line 83:
`(df["ROE (%)"] >= min_roe) & (df["P/E Ratio"] <= max_pe)`.
An absent P/E is NaN in the numeric column, and `NaN <= max_pe` is false,
so a row with absent P/E fails the predicate. -/
def rowPasses (minROE maxPE : ℚ) (r : DisplayRecord) : Bool :=
  decide (minROE ≤ r.roePercent) &&
    (match r.pe with
     | none => false
     | some pe => decide (pe ≤ maxPE))

/-- Line 83 on a frame that has its columns (at least one fetched row):
keep exactly the rows satisfying both predicates, in order.  The error
path of the same line — the empty frame has no columns to select — is
`filterTableRun` below. -/
def filterTable (minROE maxPE : ℚ) (df : List DisplayRecord) :
    List DisplayRecord :=
  df.filter (rowPasses minROE maxPE)

/-- Line 83 with its column selection made explicit: `pd.DataFrame([])`,
the frame `fetch_data` returns for an empty ticker mapping, has no
columns at all, so `df["ROE (%)"]` raises `KeyError` and the run aborts;
on a frame with rows the columns exist and the boolean mask applies. -/
def filterTableRun (minROE maxPE : ℚ) (df : List DisplayRecord) :
    Except String (List DisplayRecord) :=
  if df.isEmpty then Except.error "KeyError: ROE (%)"
  else Except.ok (filterTable minROE maxPE df)

/-- Lines 81–83 along the successful path: restrict the directory, fetch,
filter. -/
def pipeline (provider : Provider) (c : FilterCriteria) : List DisplayRecord :=
  filterTable c.minROE c.maxPE
    (fetch_data provider (filtered_tickers c.selectedCompanies))

/-- Lines 81–83 with the line-83 error path explicit: an empty restricted
directory produces the column-less empty frame and the filter line
raises instead of producing a table. -/
def pipelineRun (provider : Provider) (c : FilterCriteria) :
    Except String (List DisplayRecord) :=
  filterTableRun c.minROE c.maxPE
    (fetch_data provider (filtered_tickers c.selectedCompanies))

/-- The row produced for a symbol whose response carries no data: every
numeric field defaults to zero, the P/E stays absent, and the trend falls
through to Flat. -/
def zeroRow (name : String) : DisplayRecord :=
  { company := name, currentPrice := 0, high52 := 0, low52 := 0
  , trend := "↔️", marketCapCr := 0, pe := none, roePercent := 0 }

/-- `fetch_data` (lines 26–45) with the provider call's exception path
explicit: line 30 (`info = stock.info`) sits in the loop with no
try/except anywhere around it, so the first symbol whose call raises
aborts the whole fetch and no rows at all are produced; when a call
returns a response, the row is built from it exactly as in `fetchRow`. -/
def fetch_data_run (provider : String → Except String Info) :
    List (String × String) → Except String (List DisplayRecord)
  | [] => Except.ok []
  | entry :: rest =>
    match provider entry.2 with
    | Except.error e => Except.error e
    | Except.ok info =>
      match fetch_data_run provider rest with
      | Except.error e => Except.error e
      | Except.ok rows => Except.ok (fetchRow (fun _ => info) entry :: rows)

/-- One bar chart spec (lines 90–96): three bars and a title built from the
company name and trend glyph. -/
structure ChartSpec where
  title : String
  currentBar : ℚ
  highBar : ℚ
  lowBar : ℚ
deriving DecidableEq, Repr

/-- The charting loop (lines 90–96): one chart per retained row. -/
def charts (df : List DisplayRecord) : List ChartSpec :=
  df.map fun r =>
    { title := r.company ++ " " ++ r.trend
    , currentBar := r.currentPrice
    , highBar := r.high52
    , lowBar := r.low52 }

/-- The in-memory workbook produced by `convert_df_to_excel`
(lines 62–66): a single sheet holding the rows of the table. -/
structure Workbook where
  sheetName : String
  rows : List DisplayRecord
deriving DecidableEq, Repr

/-- `convert_df_to_excel` (lines 62–66): serialize the table into a
single-sheet workbook named `BankNifty`. -/
def convert_df_to_excel (df : List DisplayRecord) : Workbook :=
  { sheetName := "BankNifty", rows := df }

/-- The ambient state a run observes: the provider and the wall clock
(`datetime.now()`, line 71).  Only the caption reads the clock. -/
structure Env where
  provider : Provider
  now : Nat

/-- The caption of line 71 depends on the clock. -/
def lastUpdatedStamp (e : Env) : Nat := e.now

/-- The result table of one run, as a function of the environment and the
UI criteria. -/
def resultTable (e : Env) (c : FilterCriteria) : List DisplayRecord :=
  pipeline e.provider c

/-! ### Concrete fixtures used by counterexamples and witnesses -/

/-- Provider response with every field absent except a return on equity of
0.20: after normalization the row has `ROEPercent = 20.00` and absent P/E. -/
def peAbsentInfo : Info :=
  { Info.empty with returnOnEquity := some (1/5) }

/-- Provider that answers `peAbsentInfo` for every symbol. -/
def peAbsentProvider : Provider := fun _ => peAbsentInfo

/-- The worked example of the specification:
current 1500, high 1600, low 1000, market cap 3.5e12, P/E 18.2, ROE 0.17. -/
def specExampleInfo : Info :=
  { currentPrice := some 1500, fiftyTwoWeekHigh := some 1600
  , fiftyTwoWeekLow := some 1000, marketCap := some 3500000000000
  , trailingPE := some (91/5), returnOnEquity := some (17/100) }

/-- Provider that answers `specExampleInfo` for every symbol. -/
def specExampleProvider : Provider := fun _ => specExampleInfo

/-- Provider response with every quote field literally zero and P/E 18:
ROEPercent 20, so the row passes the default criteria. -/
def goodInfo : Info :=
  { currentPrice := some 1500, fiftyTwoWeekHigh := some 1600
  , fiftyTwoWeekLow := some 1000, marketCap := some 3500000000000
  , trailingPE := some 18, returnOnEquity := some (1/5) }

/-- Provider that answers `goodInfo` for every symbol. -/
def goodProvider : Provider := fun _ => goodInfo

/-- Provider whose every numeric field is the literal zero (and P/E
absent): the degenerate quote of the trend tie-break discussion. -/
def zeroQuoteProvider : Provider := fun _ =>
  { currentPrice := some 0, fiftyTwoWeekHigh := some 0
  , fiftyTwoWeekLow := some 0, marketCap := some 0
  , trailingPE := none, returnOnEquity := some 0 }

/-- The row produced from `goodInfo` for HDFC Bank. -/
def goodRow : DisplayRecord :=
  { company := "HDFC Bank", currentPrice := 1500, high52 := 1600
  , low52 := 1000, trend := "↔️", marketCapCr := 350000
  , pe := some 18, roePercent := 20 }

/-! ### Helper lemmas -/

/-- The line-83 predicate holds exactly when the ROE bound is met and the
P/E is present and within bound (an absent P/E compares like NaN: false). -/
lemma rowPasses_eq_true_iff (mr mp : ℚ) (r : DisplayRecord) :
    rowPasses mr mp r = true ↔
      mr ≤ r.roePercent ∧ ∃ v, r.pe = some v ∧ v ≤ mp := by
  unfold rowPasses
  cases hpe : r.pe <;> simp [hpe]

/-- Every entry of the restricted directory has its key among the
selected companies. -/
lemma mem_filtered_tickers {sel : List String} {entry : String × String}
    (h : entry ∈ filtered_tickers sel) : entry.1 ∈ sel := by
  unfold filtered_tickers at h
  rw [List.mem_filterMap] at h
  obtain ⟨k, hk, he⟩ := h
  rw [Option.map_eq_some'] at he
  obtain ⟨v, _, hv⟩ := he
  rw [← hv]
  exact hk

/-- Evaluation of the whole pipeline on the `goodProvider` fixture with
the default criteria: exactly the HDFC row survives. -/
lemma pipeline_good_eval :
    pipeline goodProvider
      { selectedCompanies := ["HDFC Bank"], minROE := 10, maxPE := 25 } =
      [goodRow] := by
  unfold pipeline filtered_tickers fetch_data filterTable
  simp only [bank_nifty_tickers, List.lookup, goodRow]
  norm_num [fetchRow, computeTrend, goodProvider, goodInfo, rowPasses,
    roundTo2, roundHalfEven, List.filter]

/-- Provider that has no data for any symbol. -/
def emptyProvider : Provider := fun _ => Info.empty

/-- Provider fixture where both the Up and the Down threshold hold:
current 100 exceeds 95 = 0.95 x high and is below 1050 = 1.05 x low. -/
def bothCondProvider : Provider := fun _ =>
  { currentPrice := some 100, fiftyTwoWeekHigh := some 100
  , fiftyTwoWeekLow := some 1000, marketCap := none
  , trailingPE := none, returnOnEquity := none }

/-- Provider call fixture whose network layer raises for the HDFC symbol
and answers full data for every other symbol. -/
def raisingProvider : String → Except String Info := fun s =>
  if s = "HDFCBANK.NS" then Except.error "ConnectionError"
  else Except.ok goodInfo

/-- A response with no data yields the all-zero row with absent P/E. -/
lemma fetchRow_of_empty (p : Provider) (entry : String × String)
    (hp : p entry.2 = Info.empty) : fetchRow p entry = zeroRow entry.1 := by
  norm_num [fetchRow, computeTrend, hp, Info.empty, zeroRow, roundTo2,
    roundHalfEven, DisplayRecord.mk.injEq]

/-- When every selected symbol's provider call returns a response, the
raising model refines the total model: the fetch succeeds and produces
exactly the table of `fetch_data` on the returned responses. -/
lemma fetch_data_run_ok (p : String → Except String Info) (q : Provider) :
    ∀ tickers : List (String × String),
      (∀ entry ∈ tickers, p entry.2 = Except.ok (q entry.2)) →
      fetch_data_run p tickers = Except.ok (fetch_data q tickers) := by
  intro tickers
  induction tickers with
  | nil => intro _; rfl
  | cons entry rest ih =>
    intro hok
    have hhead : p entry.2 = Except.ok (q entry.2) := hok entry (by simp)
    have hrest : ∀ e ∈ rest, p e.2 = Except.ok (q e.2) :=
      fun e he => hok e (List.mem_cons_of_mem _ he)
    simp only [fetch_data_run, hhead, ih hrest]
    rfl

/-- If the provider call raises for any selected symbol, the whole fetch
aborts with an error: no substitution, no partial table. -/
lemma fetch_data_run_error (p : String → Except String Info) :
    ∀ tickers : List (String × String),
      (∃ entry ∈ tickers, ∃ e, p entry.2 = Except.error e) →
      ∃ e, fetch_data_run p tickers = Except.error e := by
  intro tickers
  induction tickers with
  | nil =>
    rintro ⟨entry, hmem, _⟩
    exact absurd hmem (List.not_mem_nil _)
  | cons entry rest ih =>
    rintro ⟨w, hw, e, he⟩
    cases hpe : p entry.2 with
    | error e0 => exact ⟨e0, by simp only [fetch_data_run, hpe]⟩
    | ok info =>
      rcases List.mem_cons.mp hw with heq | hmem
      · rw [heq, hpe] at he
        exact absurd he (by simp)
      · obtain ⟨e1, he1⟩ := ih ⟨w, hmem, e, he⟩
        exact ⟨e1, by simp only [fetch_data_run, hpe, he1]⟩

/-! ### Claims -/

/-- C1, counterexample: the claim says a record with absent P/E passes the
maximum-P/E filter.  On the code it does not: with the provider returning
only ROE 0.20, the fetched row has absent P/E, ROEPercent 20 and its
company selected, yet the line-83 filter drops it and the result table is
empty. -/
theorem c1_counterexample :
    fetch_data peAbsentProvider (filtered_tickers ["HDFC Bank"]) =
      [{ company := "HDFC Bank", currentPrice := 0, high52 := 0, low52 := 0
       , trend := "↔️", marketCapCr := 0, pe := none, roePercent := 20 }] ∧
    pipeline peAbsentProvider
      { selectedCompanies := ["HDFC Bank"], minROE := 10, maxPE := 25 } =
      [] := by
  constructor
  · norm_num [fetch_data, filtered_tickers, bank_nifty_tickers, List.lookup,
      List.filterMap, fetchRow, computeTrend, peAbsentProvider, peAbsentInfo,
      Info.empty, roundTo2, roundHalfEven, DisplayRecord.mk.injEq]
  · norm_num [pipeline, filterTable, fetch_data, filtered_tickers,
      bank_nifty_tickers, List.lookup, List.filterMap, List.filter, fetchRow,
      computeTrend, peAbsentProvider, peAbsentInfo, Info.empty, rowPasses,
      roundTo2, roundHalfEven]

/-- C1, amended: a record whose P/E is absent FAILS the maximum-P/E filter
(the pandas comparison against NaN is false) and is excluded from the
filtered table, whatever its ROE and company. -/
theorem c1_amended_pe_absent_excluded (mr mp : ℚ) (r : DisplayRecord)
    (h : r.pe = none) :
    rowPasses mr mp r = false ∧ ∀ df, r ∉ filterTable mr mp df := by
  have hfail : rowPasses mr mp r = false := by
    unfold rowPasses
    rw [h]
    simp
  refine ⟨hfail, fun df hmem => ?_⟩
  rw [filterTable, List.mem_filter] at hmem
  rw [hfail] at hmem
  exact Bool.false_ne_true hmem.2

/-- Witness for C1 amended: the concrete absent-P/E row is rejected. -/
theorem c1_amended_witness :
    ({ company := "HDFC Bank", currentPrice := 0, high52 := 0, low52 := 0
     , trend := "↔️", marketCapCr := 0, pe := none,
       roePercent := 20 } : DisplayRecord).pe = none ∧
    (rowPasses 10 25
      { company := "HDFC Bank", currentPrice := 0, high52 := 0, low52 := 0
      , trend := "↔️", marketCapCr := 0, pe := none, roePercent := 20 } =
        false ∧
     ∀ df, ({ company := "HDFC Bank", currentPrice := 0, high52 := 0
            , low52 := 0, trend := "↔️", marketCapCr := 0, pe := none,
              roePercent := 20 } : DisplayRecord) ∉ filterTable 10 25 df) :=
  ⟨rfl, c1_amended_pe_absent_excluded 10 25 _ rfl⟩

/-- C2: the claim — and the specification behind it — say an empty
company selection yields an empty result table, not an error.  The code
disagrees: with an empty selection the fetch returns the column-less
empty frame, and the filter line raises `KeyError` before any table,
chart or export is produced.  The spec states the intent; the unhandled
empty-frame selection on line 83 is the slip. -/
theorem c2_empty_selection_keyerror (p : Provider) (mr mp : ℚ) :
    pipelineRun p { selectedCompanies := [], minROE := mr, maxPE := mp } =
      Except.error "KeyError: ROE (%)" := by
  simp [pipelineRun, filterTableRun, filtered_tickers, fetch_data]

/-- C3, counterexample: the claim says the all-zero degenerate quote gets
Trend = Up.  On the code both strict threshold tests fail at zero, so the
trend is the Flat glyph, not the Up glyph. -/
theorem c3_counterexample :
    (fetchRow zeroQuoteProvider ("HDFC Bank", "HDFCBANK.NS")).trend = "↔️" ∧
    ("↔️" : String) ≠ "⬆️" := by
  constructor
  · norm_num [fetchRow, computeTrend, zeroQuoteProvider]
  · decide

/-- C3, amended: for every quote with current price, 52-week high and
52-week low all zero, the normalizer assigns the Flat trend (neither
strict inequality holds in the degenerate case). -/
theorem c3_amended_degenerate_is_flat (p : Provider) (e : String × String)
    (hc : (p e.2).currentPrice.getD 0 = 0)
    (hh : (p e.2).fiftyTwoWeekHigh.getD 0 = 0)
    (hl : (p e.2).fiftyTwoWeekLow.getD 0 = 0) :
    (fetchRow p e).trend = "↔️" := by
  simp only [fetchRow, computeTrend, hc, hh, hl]
  norm_num

/-- Witness for C3 amended, at the all-zero quote. -/
theorem c3_amended_witness :
    (zeroQuoteProvider "HDFCBANK.NS").currentPrice.getD 0 = 0 ∧
    (fetchRow zeroQuoteProvider ("HDFC Bank", "HDFCBANK.NS")).trend = "↔️" :=
  ⟨rfl, c3_amended_degenerate_is_flat zeroQuoteProvider
    ("HDFC Bank", "HDFCBANK.NS") rfl rfl rfl⟩

/-- C4: whenever the current price strictly exceeds 0.95 times the 52-week
high, the normalizer assigns the Up trend, regardless of whether the Down
condition also holds. -/
theorem c4_up_condition_wins (p : Provider) (e : String × String)
    (h : (p e.2).fiftyTwoWeekHigh.getD 0 * (19/20) <
        (p e.2).currentPrice.getD 0) :
    (fetchRow p e).trend = "⬆️" := by
  simp only [fetchRow, computeTrend]
  rw [if_pos h]

/-- Witness for C4: a quote where the Up and the Down condition both hold;
the Up branch wins. -/
theorem c4_witness :
    ((bothCondProvider "HDFCBANK.NS").fiftyTwoWeekHigh.getD 0 * (19/20) <
      (bothCondProvider "HDFCBANK.NS").currentPrice.getD 0) ∧
    ((bothCondProvider "HDFCBANK.NS").currentPrice.getD 0 <
      (bothCondProvider "HDFCBANK.NS").fiftyTwoWeekLow.getD 0 * (21/20)) ∧
    (fetchRow bothCondProvider ("HDFC Bank", "HDFCBANK.NS")).trend = "⬆️" :=
  ⟨by norm_num [bothCondProvider], by norm_num [bothCondProvider],
   c4_up_condition_wins bothCondProvider ("HDFC Bank", "HDFCBANK.NS")
     (by norm_num [bothCondProvider])⟩

/-- C5: every record of any result table has its company among the
selected companies, meets the minimum-ROE bound, and has a P/E that is
absent or within the maximum-P/E bound.  (The code in fact never retains
an absent P/E, which satisfies this disjunction a fortiori.) -/
theorem c5_result_invariant (p : Provider) (c : FilterCriteria)
    (r : DisplayRecord) (h : r ∈ pipeline p c) :
    r.company ∈ c.selectedCompanies ∧
    c.minROE ≤ r.roePercent ∧
    (r.pe = none ∨ ∃ v, r.pe = some v ∧ v ≤ c.maxPE) := by
  unfold pipeline filterTable at h
  rw [List.mem_filter] at h
  obtain ⟨hmem, hpass⟩ := h
  rw [rowPasses_eq_true_iff] at hpass
  unfold fetch_data at hmem
  rw [List.mem_map] at hmem
  obtain ⟨entry, hentry, hrow⟩ := hmem
  refine ⟨?_, hpass.1, Or.inr hpass.2⟩
  have hcomp : r.company = entry.1 := by
    rw [← hrow]
    rfl
  rw [hcomp]
  exact mem_filtered_tickers hentry

/-- Witness for C5, on the concrete `goodProvider` run. -/
theorem c5_witness :
    goodRow ∈ pipeline goodProvider
      { selectedCompanies := ["HDFC Bank"], minROE := 10, maxPE := 25 } ∧
    (goodRow.company ∈ ["HDFC Bank"] ∧
     (10 : ℚ) ≤ goodRow.roePercent ∧
     (goodRow.pe = none ∨ ∃ v, goodRow.pe = some v ∧ v ≤ (25 : ℚ))) :=
  ⟨by rw [pipeline_good_eval]; exact List.mem_singleton.mpr rfl,
   c5_result_invariant goodProvider
     { selectedCompanies := ["HDFC Bank"], minROE := 10, maxPE := 25 }
     goodRow
     (by rw [pipeline_good_eval]; exact List.mem_singleton.mpr rfl)⟩

/-- C6: the normalizer computes MarketCapCr and ROEPercent by the stated
formulas (2-decimal rounding, ROE defaulting to 0 when absent), and on the
worked example of the specification produces exactly the expected record
(trend Flat, market cap 350000.00 crore, P/E 18.2, ROE 17.00 percent). -/
theorem c6_normalizer_numbers :
    (∀ (p : Provider) (e : String × String),
        (fetchRow p e).marketCapCr =
          roundTo2 ((p e.2).marketCap.getD 0 / 10000000) ∧
        (fetchRow p e).roePercent =
          roundTo2 ((p e.2).returnOnEquity.getD 0 * 100)) ∧
    fetchRow specExampleProvider ("HDFC Bank", "HDFCBANK.NS") =
      { company := "HDFC Bank", currentPrice := 1500, high52 := 1600
      , low52 := 1000, trend := "↔️", marketCapCr := 350000
      , pe := some (91/5), roePercent := 17 } := by
  constructor
  · exact fun p e => ⟨rfl, rfl⟩
  · norm_num [fetchRow, computeTrend, specExampleProvider, specExampleInfo,
      roundTo2, roundHalfEven, DisplayRecord.mk.injEq]

/-- C7: the line-83 filter is idempotent — filtering an already-filtered
table with the same criteria returns the same table. -/
theorem c7_filter_idempotent (mr mp : ℚ) (df : List DisplayRecord) :
    filterTable mr mp (filterTable mr mp df) = filterTable mr mp df := by
  simp [filterTable, List.filter_filter]

/-- C8, counterexample: the claim says a network error for one symbol is
substituted with a zero quote and the remaining symbols' rows are still
produced.  On the code a raising provider call has no handler: with the
HDFC call raising and full data available for ICICI, the fetch aborts
with the error — no substituted row and no row for the other symbol. -/
theorem c8_counterexample :
    fetch_data_run raisingProvider
      [("HDFC Bank", "HDFCBANK.NS"), ("ICICI Bank", "ICICIBANK.NS")] =
      Except.error "ConnectionError" := by
  simp [fetch_data_run, raisingProvider]

/-- C8, amended: when the provider call returns a response for every
selected symbol, the fetch succeeds with one row per symbol and a
no-data response is substituted by the all-zero row (P/E absent) — one
lookup per symbol, no retry; but when the call raises a network error
for any selected symbol, the whole fetch aborts with an error instead of
substituting. -/
theorem c8_amended_fetch_failure_modes (p : String → Except String Info)
    (q : Provider) (tickers : List (String × String)) :
    ((∀ entry ∈ tickers, p entry.2 = Except.ok (q entry.2)) →
      fetch_data_run p tickers = Except.ok (fetch_data q tickers) ∧
      (fetch_data q tickers).length = tickers.length ∧
      ∀ entry ∈ tickers, q entry.2 = Info.empty →
        fetchRow q entry = zeroRow entry.1 ∧
        fetchRow q entry ∈ fetch_data q tickers) ∧
    ((∃ entry ∈ tickers, ∃ e, p entry.2 = Except.error e) →
      ∃ e, fetch_data_run p tickers = Except.error e) :=
  ⟨fun hok =>
    ⟨fetch_data_run_ok p q tickers hok, by simp [fetch_data],
     fun entry hmem hemp =>
       ⟨fetchRow_of_empty q entry hemp, List.mem_map_of_mem _ hmem⟩⟩,
   fetch_data_run_error p tickers⟩

/-- Witness for C8 amended: a one-symbol directory whose call returns the
empty response (fetch succeeds with the zero row), and a two-symbol
directory whose first call raises (fetch aborts). -/
theorem c8_amended_witness :
    (fetch_data_run (fun _ => Except.ok Info.empty)
        [("HDFC Bank", "HDFCBANK.NS")] =
      Except.ok (fetch_data emptyProvider [("HDFC Bank", "HDFCBANK.NS")]) ∧
     (fetch_data emptyProvider [("HDFC Bank", "HDFCBANK.NS")]).length =
       [(("HDFC Bank" : String), ("HDFCBANK.NS" : String))].length ∧
     ∀ entry ∈ [(("HDFC Bank" : String), ("HDFCBANK.NS" : String))],
       emptyProvider entry.2 = Info.empty →
       fetchRow emptyProvider entry = zeroRow entry.1 ∧
       fetchRow emptyProvider entry ∈
         fetch_data emptyProvider [("HDFC Bank", "HDFCBANK.NS")]) ∧
    (∃ e, fetch_data_run raisingProvider
        [("HDFC Bank", "HDFCBANK.NS"), ("ICICI Bank", "ICICIBANK.NS")] =
      Except.error e) :=
  ⟨(c8_amended_fetch_failure_modes (fun _ => Except.ok Info.empty)
      emptyProvider [("HDFC Bank", "HDFCBANK.NS")]).1
      (fun entry _ => rfl),
   (c8_amended_fetch_failure_modes raisingProvider emptyProvider
      [("HDFC Bank", "HDFCBANK.NS"), ("ICICI Bank", "ICICIBANK.NS")]).2
      ⟨("HDFC Bank", "HDFCBANK.NS"), by simp, "ConnectionError",
       by simp [raisingProvider]⟩⟩

/-- C9 (implicit): every record retained by the filter has a present P/E
that is at most maxPE; no absent-P/E row reaches presentation or export. -/
theorem c9_retained_pe_present (p : Provider) (c : FilterCriteria)
    (r : DisplayRecord) (h : r ∈ pipeline p c) :
    ∃ v, r.pe = some v ∧ v ≤ c.maxPE := by
  unfold pipeline filterTable at h
  rw [List.mem_filter] at h
  exact ((rowPasses_eq_true_iff _ _ _).1 h.2).2

/-- Witness for C9, on the concrete `goodProvider` run. -/
theorem c9_witness :
    goodRow ∈ pipeline goodProvider
      { selectedCompanies := ["HDFC Bank"], minROE := 10, maxPE := 25 } ∧
    (∃ v, goodRow.pe = some v ∧ v ≤ (25 : ℚ)) :=
  ⟨by rw [pipeline_good_eval]; exact List.mem_singleton.mpr rfl,
   c9_retained_pe_present goodProvider
     { selectedCompanies := ["HDFC Bank"], minROE := 10, maxPE := 25 }
     goodRow
     (by rw [pipeline_good_eval]; exact List.mem_singleton.mpr rfl)⟩

/-- C10 (implicit): the result table is a deterministic function of the
provider responses and the criteria — two runs whose environments agree on
the provider (the clock may differ) yield identical tables: same rows,
same values, same order. -/
theorem c10_result_deterministic (e1 e2 : Env) (c : FilterCriteria)
    (h : e1.provider = e2.provider) :
    resultTable e1 c = resultTable e2 c := by
  unfold resultTable
  rw [h]

/-- Witness for C10: two runs at different clock readings produce the same
table. -/
theorem c10_witness :
    (Env.mk goodProvider 0).provider = (Env.mk goodProvider 1).provider ∧
    lastUpdatedStamp (Env.mk goodProvider 0) ≠
      lastUpdatedStamp (Env.mk goodProvider 1) ∧
    resultTable (Env.mk goodProvider 0)
        { selectedCompanies := ["HDFC Bank"], minROE := 10, maxPE := 25 } =
      resultTable (Env.mk goodProvider 1)
        { selectedCompanies := ["HDFC Bank"], minROE := 10, maxPE := 25 } :=
  ⟨rfl, by decide,
   c10_result_deterministic (Env.mk goodProvider 0) (Env.mk goodProvider 1)
     { selectedCompanies := ["HDFC Bank"], minROE := 10, maxPE := 25 } rfl⟩
